import Mathlib

/-!
Verification of the ground-station flight software
(`ground_station/rocket_client.py`, `ground_station/flight_controller.py`).

Shallow embedding conventions:
* Python floats are modelled as rationals (`ℚ`); every threshold comparison
  in the source is an exact comparison, so `ℚ` is faithful for them.
* Telemetry values may be non-numeric (the store holds `Any`); `PyVal`
  distinguishes a numeric reading from a non-coercible one.
* Each call of a telemetry getter inside a polling loop consumes the next
  element of an input list (the sequence of values the store would have
  returned); a loop that would spin forever on the Python side is modelled
  by the function returning `none` when its input list is exhausted.
* Hardware commands and the fixed `time.sleep` pacing calls are recorded in
  an output trace (`Cmd`), in the order the source issues them.
* Python exceptions are modelled with `Except`; a Lean function that is
  total without `Except` embeds code that cannot raise.
-/

namespace GroundStation

/-- A value held in the telemetry store: either coercible to `float`
(`num`) or not (`nonnum`, e.g. a string that `float()` rejects). -/
inductive PyVal where
  | num (x : ℚ)
  | nonnum
deriving DecidableEq

/-- The `FlightState` enumeration of `flight_controller.py`. -/
inductive FlightState where
  | IDLE | TANKING_OX | OX_READY | TANKING_FUEL | FUEL_READY | HEATING
  | ARMED | IGNITION_SEQUENCE | BOOST | ASCENT | COAST | APOGEE
  | DESCENT | CHUTE_DEPLOYED | LANDED | ABORT
deriving DecidableEq

/-- An observable action of the controller: a hardware command issued
through `RocketClient`, or a fixed pacing `time.sleep` (milliseconds). -/
inductive Cmd where
  | setServoPosition (name : String) (position : Int)
  | relayOpen (name : String)
  | relayClose (name : String)
  | sleep (ms : Nat)
deriving DecidableEq

/-- Is the action a hardware command (servo or relay), as opposed to a
pacing sleep? -/
def Cmd.isHardware : Cmd → Bool
  | .setServoPosition _ _ => true
  | .relayOpen _ => true
  | .relayClose _ => true
  | .sleep _ => false

/-- The servo calibration maps of `RocketClient` (`servo_open_pos`,
`servo_closed_pos`), as read-only configuration. -/
structure Config where
  servo_open_pos : String → Int
  servo_closed_pos : String → Int

/-- A snapshot of the telemetry store as `RocketClient.get_telem` sees it:
`none` when the key was never written. -/
def Telem : Type := String → Option PyVal

/-! ## TelemetryStore (`rocket_client.py`, class TelemetryStore) -/

/-- The `_data` dict of `TelemetryStore`, as a map from key to the stored
value (`none` = key absent). -/
def TStore : Type := String → Option PyVal

/-- Embeds `TelemetryStore.update`: overwrite (or insert) the value for `key`. -/
def TStore.update (s : TStore) (key : String) (value : PyVal) : TStore :=
  fun k => if k = key then some value else s k

/-- Embeds `TelemetryStore.get`: stored value, or the caller's default when the
key is absent (`d = none` models a Python `None` default). -/
def TStore.get (s : TStore) (key : String) (d : Option PyVal) : Option PyVal :=
  match s key with
  | some v => some v
  | none => d

/-- Embeds `TelemetryStore.get_all`: a point-in-time copy of the contents
(`dict(self._data)`); in the embedding a store value is already immutable,
exactly like the copy the source hands out. -/
def TStore.get_all (s : TStore) : String → Option PyVal := fun k => s k

/-- The empty store (`self._data = {}`). -/
def TStore.empty : TStore := fun _ => none

/-- Run a chronological sequence of `update` operations on a store. -/
def runUpdates : List (String × PyVal) → TStore → TStore
  | [], s => s
  | (k, v) :: rest, s => runUpdates rest (s.update k v)

/-- The last value written for `key` in a chronological update sequence,
if any. -/
def lastWritten : List (String × PyVal) → String → Option PyVal
  | [], _ => none
  | (k, v) :: rest, key =>
    match lastWritten rest key with
    | some w => some w
    | none => if key = k then some v else none

/-! ## RocketClient hardware commands (`rocket_client.py`) -/

/-- Errors a command call can raise: the interpreter's `KeyError` from a
failed dict lookup, or the distinct `UnknownDeviceError` the specification
names (no such exception type exists in the repository; the constructor is
present so that statements can distinguish the two). -/
inductive PyError where
  | keyError (key : String)
  | unknownDeviceError (key : String)
deriving DecidableEq

/-- Embeds `RocketClient.set_servo_position`: `self.servo_map[servo_name]` (a
plain dict lookup, raising `KeyError` on a missing name), then build and
send the SERVICE frame — modelled as the resulting command. -/
def set_servo_position (servo_map : List (String × Nat)) (servo_name : String)
    (position : Int) : Except PyError Cmd :=
  match servo_map.lookup servo_name with
  | none => .error (.keyError servo_name)
  | some _ => .ok (.setServoPosition servo_name position)

/-- Embeds `RocketClient.relay_open`: `self.relay_map[relay_name]` then send the
relay-OPEN frame. -/
def relay_open (relay_map : List (String × Nat)) (relay_name : String) :
    Except PyError Cmd :=
  match relay_map.lookup relay_name with
  | none => .error (.keyError relay_name)
  | some _ => .ok (.relayOpen relay_name)

/-- Embeds `RocketClient.relay_close`: `self.relay_map[relay_name]` then send the
relay-CLOSE frame. -/
def relay_close (relay_map : List (String × Nat)) (relay_name : String) :
    Except PyError Cmd :=
  match relay_map.lookup relay_name with
  | none => .error (.keyError relay_name)
  | some _ => .ok (.relayClose relay_name)

/-! ## FlightController telemetry helpers (`flight_controller.py`) -/

/-- Embeds `FlightController._telem(key, default)`: `get_telem(key, default)` then
`float(val)`, falling back to `default` when the coercion raises
(`ValueError`/`TypeError`, including `float(None)` for an absent key). -/
def telemRaw (t : Telem) (key : String) (default : Option ℚ) : Option ℚ :=
  match t key with
  | some (.num x) => some x
  | some .nonnum => default
  | none => default

/-- The helper `_telem` with a numeric default, as used by the sensor getters
(`fuel_level`, `oxidizer_level`, `oxidizer_pressure`, `altitude`, each with
default `0.0`). -/
def telemF (t : Telem) (key : String) (default : ℚ) : ℚ :=
  match t key with
  | some (.num x) => x
  | some .nonnum => default
  | none => default

/-- Embeds `FlightController.oxidizer_pressure()`. -/
def oxidizer_pressure (t : Telem) : ℚ := telemF t "oxidizer_pressure" 0

/-- Embeds `FlightController.servo_is_closed`: read `<name>_pos` with default
`None`; `False` if still `None`; else compare to the configured closed
position with tolerance `abs(pos - closed_target) < 5`. -/
def servo_is_closed (cfg : Config) (t : Telem) (servo_name : String) : Bool :=
  match telemRaw t (servo_name ++ "_pos") none with
  | none => false
  | some pos => decide (|pos - (cfg.servo_closed_pos servo_name : ℚ)| < 5)

/-- Embeds `FlightController.vertical_speed`: two altitude samples `sample_dt`
apart; returns `(h2 - h1) / max (t2 - t1) 1e-6`. -/
def vertical_speed (h1 h2 t1 t2 : ℚ) : ℚ :=
  (h2 - h1) / max (t2 - t1) (1 / 1000000)

/-! ## Phase methods (`flight_controller.py`) -/

/-- The `while self.<level>() < 100.0: time.sleep(0.2)` fill loop shared by
`tank_oxidizer` and `tank_fuel`, over the successive level readings; `none`
when the readings run out before the level reaches 100. -/
def fillLoop : List ℚ → Option (List Cmd)
  | [] => none
  | l :: rest =>
    if l < 100 then (fillLoop rest).map (fun tr => Cmd.sleep 200 :: tr)
    else some []

/-- Embeds `FlightController.tank_oxidizer`: state `TANKING_OX`, open the
oxidizer intake, fill loop on `oxidizer_level`, close the intake, state
`OX_READY`. The entry state `s` is overwritten without any ABORT check. -/
def tank_oxidizer (cfg : Config) (levels : List ℚ) (_entry : FlightState) :
    Option (FlightState × List Cmd) :=
  match fillLoop levels with
  | none => none
  | some tr =>
    some (.OX_READY,
      Cmd.setServoPosition "oxidizer_intake" (cfg.servo_open_pos "oxidizer_intake")
        :: tr
        ++ [Cmd.setServoPosition "oxidizer_intake" (cfg.servo_closed_pos "oxidizer_intake")])

/-- Embeds `FlightController.tank_fuel`: same pattern on the fuel intake and
`fuel_level`, ending in `FUEL_READY`; no ABORT check. -/
def tank_fuel (cfg : Config) (levels : List ℚ) (_entry : FlightState) :
    Option (FlightState × List Cmd) :=
  match fillLoop levels with
  | none => none
  | some tr =>
    some (.FUEL_READY,
      Cmd.setServoPosition "fuel_intake" (cfg.servo_open_pos "fuel_intake")
        :: tr
        ++ [Cmd.setServoPosition "fuel_intake" (cfg.servo_closed_pos "fuel_intake")])

/-- The heating poll loop of `heat_oxidizer` over successive
`oxidizer_pressure` readings: window `[55, 65]` checked first (success,
`false`), then `>= 90` (abort, `true`), else sleep 200 ms and poll again;
`none` when the readings run out with neither condition met. -/
def heatLoop : List ℚ → Option (Bool × List Cmd)
  | [] => none
  | p :: rest =>
    if 55 ≤ p ∧ p ≤ 65 then some (false, [])
    else if 90 ≤ p then some (true, [])
    else (heatLoop rest).map (fun r => (r.1, Cmd.sleep 200 :: r.2))

/-- Embeds `FlightController.heat_oxidizer`: state `HEATING`, heater relay on,
heating poll loop, heater relay off on every exit, then `ARMED` unless the
loop aborted (in which case the state stays `ABORT`). The entry state `s`
is overwritten without any ABORT check. -/
def heat_oxidizer (pressures : List ℚ) (_entry : FlightState) :
    Option (FlightState × List Cmd) :=
  match heatLoop pressures with
  | none => none
  | some (aborted, tr) =>
    some (if aborted then .ABORT else .ARMED,
      Cmd.relayOpen "oxidizer_heater" :: tr ++ [Cmd.relayClose "oxidizer_heater"])

/-- Embeds `FlightController.ignition_sequence`: return unchanged on `ABORT`
entry; abort with no commands if either intake does not read closed or the
oxidizer pressure is outside `[40, 65]`; otherwise open `fuel_main`, sleep
200 ms, open `oxidizer_main`, sleep 200 ms, enable the igniter relay, and
end in `BOOST`. -/
def ignition_sequence (cfg : Config) (t : Telem) (s : FlightState) :
    FlightState × List Cmd :=
  if s = .ABORT then (s, [])
  else if ¬ servo_is_closed cfg t "fuel_intake"
       ∨ ¬ servo_is_closed cfg t "oxidizer_intake" then (.ABORT, [])
  else if oxidizer_pressure t < 40 then (.ABORT, [])
  else if 65 < oxidizer_pressure t then (.ABORT, [])
  else
    (.BOOST,
      [Cmd.setServoPosition "fuel_main" (cfg.servo_open_pos "fuel_main"),
       Cmd.sleep 200,
       Cmd.setServoPosition "oxidizer_main" (cfg.servo_open_pos "oxidizer_main"),
       Cmd.sleep 200,
       Cmd.relayOpen "igniter"])

/-- Phase 1 of `climb_and_detect_apogee`: poll until a reading exceeds the
starting altitude by strictly more than 1.0 m; returns the unconsumed
samples. -/
def armLoop (start : ℚ) : List ℚ → Option (List ℚ)
  | [] => none
  | a :: rest => if 1 < a - start then some rest else armLoop start rest

/-- Phase 2 of `climb_and_detect_apogee`: track the last-seen altitude; the
first reading strictly below it yields the previous (peak) reading. -/
def trackLoop (last : ℚ) : List ℚ → Option ℚ
  | [] => none
  | a :: rest => if a < last then some last else trackLoop a rest

/-- Embeds `FlightController.climb_and_detect_apogee` over the successive
`altitude()` readings: return unchanged on `ABORT` entry (no apogee
recorded); otherwise read the starting altitude, run the arming loop, read
`last_alt`, run the tracking loop, and end in `APOGEE` with
`apogee_alt` set to the peak. Issues no hardware commands. -/
def climb_and_detect_apogee (alts : List ℚ) (s : FlightState) :
    Option (FlightState × Option ℚ) :=
  if s = .ABORT then some (s, none)
  else
    match alts with
    | [] => none
    | start :: rest =>
      match armLoop start rest with
      | none => none
      | some rest2 =>
        match rest2 with
        | [] => none
        | last0 :: rest3 =>
          (trackLoop last0 rest3).map (fun peak => (.APOGEE, some peak))

/-- One iteration's readings in the descent deploy loop: `v_down` is the
absolute vertical speed, `alt` the current altitude, `t_since` the elapsed
seconds since apogee. -/
structure DescPoll where
  v_down : ℚ
  alt : ℚ
  t_since : ℚ
deriving DecidableEq

/-- The deploy condition of `descent_and_chute`:
`(safe_speed and low_enough) or timeout` with `safe_speed = v_down ≤ 30`,
`low_enough = alt < 200`, `timeout = t_since > 9`. -/
def deployCond (p : DescPoll) : Bool :=
  (decide (p.v_down ≤ 30) && decide (p.alt < 200)) || decide (9 < p.t_since)

/-- The deploy loop of `descent_and_chute` over successive polls: at the
first poll satisfying `deployCond`, open the parachute relay and enter
`CHUTE_DEPLOYED`; otherwise sleep 500 ms and poll again; `none` when the
polls run out with no deployment (the state is still `DESCENT`). -/
def deployPhase : List DescPoll → Option (FlightState × List Cmd)
  | [] => none
  | p :: rest =>
    if deployCond p then some (.CHUTE_DEPLOYED, [Cmd.relayOpen "parachute"])
    else (deployPhase rest).map (fun r => (r.1, Cmd.sleep 500 :: r.2))

/-- The landing-detection loop of `descent_and_chute` over successive
`altitude()` readings (two reads per iteration, 1 s apart): stop when the
two samples differ by less than 0.5 m. -/
def landLoop : List ℚ → Option (List Cmd)
  | a1 :: a2 :: rest =>
    if |a2 - a1| < 1 / 2 then some [Cmd.sleep 1000]
    else (landLoop rest).map (fun tr => Cmd.sleep 1000 :: tr)
  | _ => none

/-- Embeds `FlightController.descent_and_chute`: return unchanged on `ABORT`
entry; `LANDED` immediately when the recorded apogee (`or 0.0`) is below
5 m; otherwise `DESCENT`, the deploy loop, then the landing loop, ending
`LANDED`. -/
def descent_and_chute (apogee_alt : Option ℚ) (polls : List DescPoll)
    (landAlts : List ℚ) (s : FlightState) : Option (FlightState × List Cmd) :=
  if s = .ABORT then some (s, [])
  else if apogee_alt.getD 0 < 5 then some (.LANDED, [])
  else
    match deployPhase polls with
    | none => none
    | some (_, tr1) =>
      match landLoop landAlts with
      | none => none
      | some tr2 => some (.LANDED, tr1 ++ tr2)

end GroundStation

namespace GroundStation

/-! ## Concrete test fixtures (used by witnesses and counterexamples) -/

/-- A concrete servo calibration: every servo opens at 90 and closes at 0. -/
def cfg0 : Config := { servo_open_pos := fun _ => 90, servo_closed_pos := fun _ => 0 }

/-- Telemetry with both intakes reading closed (positions 0 and 2, within
the 5-unit band of closed position 0) and oxidizer pressure 50 bar. -/
def t0 : Telem := fun k =>
  if k = "fuel_intake_pos" then some (.num 0)
  else if k = "oxidizer_intake_pos" then some (.num 2)
  else if k = "oxidizer_pressure" then some (.num 50)
  else none

/-- Telemetry with the fuel intake 20 raw units off its closed target and
oxidizer pressure 50 bar. -/
def t1 : Telem := fun k =>
  if k = "fuel_intake_pos" then some (.num 20)
  else if k = "oxidizer_intake_pos" then some (.num 2)
  else if k = "oxidizer_pressure" then some (.num 50)
  else none

/-- Telemetry into which nothing has ever arrived. -/
def tEmpty : Telem := fun _ => none

/-! ## Shared helper lemmas -/

/-- Running `runUpdates` and reading a key yields the last value written for that
key in the operation sequence, else the initial store's value. -/
theorem runUpdates_apply (ops : List (String × PyVal)) :
    ∀ (s : TStore) (key : String),
      runUpdates ops s key =
        match lastWritten ops key with
        | some v => some v
        | none => s key := by
  induction ops with
  | nil => intro s key; rfl
  | cons kv rest ih =>
    intro s key
    obtain ⟨k, v⟩ := kv
    show runUpdates rest (s.update k v) key = _
    rw [ih]
    show _ = (match (match lastWritten rest key with
        | some w => some w
        | none => if key = k then some v else none) with
      | some v => some v
      | none => s key)
    cases h : lastWritten rest key with
    | some w => simp
    | none =>
      by_cases hk : key = k <;> simp [TStore.update, hk]

end GroundStation

namespace GroundStation

/-- C1 counterexample: `tank_oxidizer` invoked with the state already
`ABORT` (oxidizer level reading 100 at once) does not return with the
state still `ABORT`: it overwrites it to `OX_READY` and issues two
servo-position hardware commands — the source has no ABORT check in
`tank_oxidizer`, `tank_fuel` or `heat_oxidizer`. -/
theorem claim_C1_counterexample :
    tank_oxidizer cfg0 [100] .ABORT
      = some (.OX_READY,
          [Cmd.setServoPosition "oxidizer_intake" 90,
           Cmd.setServoPosition "oxidizer_intake" 0])
    ∧ FlightState.OX_READY ≠ FlightState.ABORT
    ∧ (Cmd.setServoPosition "oxidizer_intake" 90).isHardware = true := by
  refine ⟨?_, by simp, rfl⟩
  norm_num [tank_oxidizer, fillLoop, cfg0]

/-- C1 (amended): the ABORT-is-absorbing guarantee holds for exactly the
phase methods that check the state on entry — `ignition_sequence`,
`climb_and_detect_apogee` and `descent_and_chute`: invoked in `ABORT`,
each returns with the state still `ABORT` and issues no hardware command
(`tank_oxidizer`, `tank_fuel` and `heat_oxidizer` have no such check). -/
theorem claim_C1_amended (cfg : Config) (t : Telem) (alts : List ℚ)
    (apogee : Option ℚ) (polls : List DescPoll) (lands : List ℚ) :
    ignition_sequence cfg t .ABORT = (.ABORT, [])
    ∧ climb_and_detect_apogee alts .ABORT = some (.ABORT, none)
    ∧ descent_and_chute apogee polls lands .ABORT = some (.ABORT, []) := by
  refine ⟨?_, ?_, ?_⟩ <;> simp [ignition_sequence, climb_and_detect_apogee, descent_and_chute]

/-- C7: `servo_is_closed` is true exactly when position telemetry for
`name ++ "_pos"` has arrived, is coercible to a number, and is within the
5-raw-unit band of the configured closed position; it is false when no
position telemetry has ever arrived, and also when the stored value is
not coercible. -/
theorem claim_C7 (cfg : Config) (t : Telem) (name : String) :
    (servo_is_closed cfg t name = true ↔
      ∃ x : ℚ, t (name ++ "_pos") = some (.num x)
        ∧ |x - (cfg.servo_closed_pos name : ℚ)| < 5)
    ∧ (t (name ++ "_pos") = none → servo_is_closed cfg t name = false)
    ∧ (t (name ++ "_pos") = some .nonnum → servo_is_closed cfg t name = false) := by
  refine ⟨?_, ?_, ?_⟩
  · unfold servo_is_closed telemRaw
    cases h : t (name ++ "_pos") with
    | none => simp [h]
    | some v =>
      cases v with
      | num x => simp [h]
      | nonnum => simp [h]
  · intro h; unfold servo_is_closed telemRaw; simp [h]
  · intro h; unfold servo_is_closed telemRaw; simp [h]

/-- C7 witness: with no telemetry ever arrived, the fuel intake does not
read closed. -/
theorem claim_C7_witness : servo_is_closed cfg0 tEmpty "fuel_intake" = false :=
  (claim_C7 cfg0 tEmpty "fuel_intake").2.1 rfl

/-- C8 counterexample: commanding a servo name absent from the device map
raises the interpreter's generic `KeyError` (from the plain dict lookup
`self.servo_map[servo_name]`), not a distinct `UnknownDeviceError` — no
such exception type exists in the repository. -/
theorem claim_C8_counterexample :
    set_servo_position [("fuel_intake", 0), ("oxidizer_intake", 1)] "vent_valve" 10
      = .error (.keyError "vent_valve")
    ∧ (Except.error (PyError.keyError "vent_valve") : Except PyError Cmd)
      ≠ .error (.unknownDeviceError "vent_valve") := by
  refine ⟨?_, by simp⟩
  simp [set_servo_position, List.lookup]

/-- C8 (amended): for every name not present in the device map,
`set_servo_position` (and likewise `relay_open` and `relay_close`) fails
fast at the point of the call — the lookup raises before any frame is
built or sent — but with Python's generic `KeyError`, not a distinct
`UnknownDeviceError`. -/
theorem claim_C8_amended (servo_map relay_map : List (String × Nat))
    (name : String) (pos : Int)
    (hs : servo_map.lookup name = none) (hr : relay_map.lookup name = none) :
    set_servo_position servo_map name pos = .error (.keyError name)
    ∧ relay_open relay_map name = .error (.keyError name)
    ∧ relay_close relay_map name = .error (.keyError name) := by
  refine ⟨?_, ?_, ?_⟩ <;> simp [set_servo_position, relay_open, relay_close, hs, hr]

/-- C8 witness: the amended claim at a concrete map missing the name. -/
theorem claim_C8_amended_witness :
    set_servo_position [("fuel_intake", 0)] "vent_valve" 10 = .error (.keyError "vent_valve")
    ∧ relay_open [("igniter", 0)] "vent_valve" = .error (.keyError "vent_valve")
    ∧ relay_close [("igniter", 0)] "vent_valve" = .error (.keyError "vent_valve") :=
  claim_C8_amended [("fuel_intake", 0)] [("igniter", 0)] "vent_valve" 10
    (by simp [List.lookup]) (by simp [List.lookup])

/-- C9: for every chronological sequence of `update` operations on an
initially empty `TelemetryStore`, `get` returns the most recently written
value for the key (or the caller's default if the key was never written);
`get_all` is a point-in-time snapshot whose contents are exactly the last
value written per key — so two snapshots with no intervening update are
equal — and `update` produces a store differing from the old one only at
the updated key, while any snapshot taken earlier is an unchanged value
(the source hands out a `dict(...)` copy, embedded as an immutable map). -/
theorem claim_C9 :
    (∀ (ops : List (String × PyVal)) (key : String) (d : Option PyVal),
      TStore.get (runUpdates ops TStore.empty) key d =
        match lastWritten ops key with
        | some v => some v
        | none => d)
    ∧ (∀ (ops : List (String × PyVal)) (key : String),
      TStore.get_all (runUpdates ops TStore.empty) key = lastWritten ops key)
    ∧ (∀ (s : TStore) (k : String) (v : PyVal) (key : String),
      TStore.get_all (s.update k v) key
        = if key = k then some v else TStore.get_all s key) := by
  refine ⟨?_, ?_, ?_⟩
  · intro ops key d
    unfold TStore.get
    rw [runUpdates_apply]
    cases lastWritten ops key <;> rfl
  · intro ops key
    unfold TStore.get_all
    rw [runUpdates_apply]
    cases lastWritten ops key <;> rfl
  · intro s k v key
    rfl

/-- C10: `vertical_speed` is total for all sample pairs and timestamps:
its divisor `max (t2 - t1) 1e-6` is strictly positive (so never zero, even
with equal timestamps), the quotient satisfies the defining equation, and
with equal timestamps the result is the finite value
`(h2 - h1) * 1000000`. -/
theorem claim_C10 (h1 h2 t1 t2 : ℚ) :
    0 < max (t2 - t1) (1 / 1000000)
    ∧ vertical_speed h1 h2 t1 t2 * max (t2 - t1) (1 / 1000000) = h2 - h1
    ∧ vertical_speed h1 h2 t1 t1 = (h2 - h1) * 1000000 := by
  have hpos : (0 : ℚ) < max (t2 - t1) (1 / 1000000) :=
    lt_of_lt_of_le (by norm_num) (le_max_right _ _)
  refine ⟨hpos, ?_, ?_⟩
  · exact div_mul_cancel₀ _ (ne_of_gt hpos)
  · unfold vertical_speed
    norm_num
    rw [div_eq_mul_inv]
    norm_num

end GroundStation

namespace GroundStation

/-- C2: whenever `ignition_sequence` passes both the intakes-closed check
and the pressure-window check (entry state not `ABORT`, both intakes
reading closed, oxidizer pressure in `[40, 65]`), it issues exactly the
trace: open `fuel_main` to its configured open position, sleep 200 ms,
open `oxidizer_main` to its configured open position, sleep 200 ms, enable
the igniter relay — so the igniter command comes strictly after both main
valve commands and the valve openings are staggered by the fixed 200 ms —
and the final state is `BOOST`. -/
theorem claim_C2 (cfg : Config) (t : Telem) (s : FlightState)
    (hs : s ≠ .ABORT)
    (hf : servo_is_closed cfg t "fuel_intake" = true)
    (ho : servo_is_closed cfg t "oxidizer_intake" = true)
    (hlo : 40 ≤ oxidizer_pressure t) (hhi : oxidizer_pressure t ≤ 65) :
    ignition_sequence cfg t s =
      (.BOOST,
        [Cmd.setServoPosition "fuel_main" (cfg.servo_open_pos "fuel_main"),
         Cmd.sleep 200,
         Cmd.setServoPosition "oxidizer_main" (cfg.servo_open_pos "oxidizer_main"),
         Cmd.sleep 200,
         Cmd.relayOpen "igniter"]) := by
  unfold ignition_sequence
  rw [if_neg hs, if_neg, if_neg (not_lt.mpr hlo), if_neg (not_lt.mpr hhi)]
  rw [hf, ho]
  simp

/-- C2 witness: concrete calibration and telemetry with both intakes
closed and pressure 50 bar, starting from `ARMED`. -/
theorem claim_C2_witness :
    FlightState.ARMED ≠ FlightState.ABORT
    ∧ servo_is_closed cfg0 t0 "fuel_intake" = true
    ∧ servo_is_closed cfg0 t0 "oxidizer_intake" = true
    ∧ 40 ≤ oxidizer_pressure t0 ∧ oxidizer_pressure t0 ≤ 65
    ∧ ignition_sequence cfg0 t0 .ARMED =
      (.BOOST,
        [Cmd.setServoPosition "fuel_main" 90, Cmd.sleep 200,
         Cmd.setServoPosition "oxidizer_main" 90, Cmd.sleep 200,
         Cmd.relayOpen "igniter"]) := by
  have hf : servo_is_closed cfg0 t0 "fuel_intake" = true := by
    simp [servo_is_closed, telemRaw, cfg0, t0]
  have ho : servo_is_closed cfg0 t0 "oxidizer_intake" = true := by
    simp [servo_is_closed, telemRaw, cfg0, t0]
    norm_num
  have hp : oxidizer_pressure t0 = 50 := rfl
  refine ⟨by simp, hf, ho, by rw [hp]; norm_num, by rw [hp]; norm_num, ?_⟩
  exact claim_C2 cfg0 t0 .ARMED (by simp) hf ho (by rw [hp]; norm_num) (by rw [hp]; norm_num)

/-- C4: `ignition_sequence` aborts atomically and non-exceptionally (the
embedding is a total function — no `Except` needed, matching a method that
raises nothing): whenever either intake does not read closed or the
pressure is outside `[40, 65]`, the result is state `ABORT` with an empty
trace (no valve or igniter command); conversely any run that issues a
command had both intakes reading closed and pressure within `[40, 65]`. -/
theorem claim_C4 (cfg : Config) (t : Telem) (s : FlightState) :
    ((¬ (servo_is_closed cfg t "fuel_intake" = true
          ∧ servo_is_closed cfg t "oxidizer_intake" = true)
      ∨ oxidizer_pressure t < 40 ∨ 65 < oxidizer_pressure t) →
      ignition_sequence cfg t s = (.ABORT, []))
    ∧ ((ignition_sequence cfg t s).2 ≠ [] →
      servo_is_closed cfg t "fuel_intake" = true
      ∧ servo_is_closed cfg t "oxidizer_intake" = true
      ∧ 40 ≤ oxidizer_pressure t ∧ oxidizer_pressure t ≤ 65) := by
  constructor
  · intro h
    unfold ignition_sequence
    by_cases hs : s = .ABORT
    · subst hs
      rcases h with h | h | h <;> simp
    · rw [if_neg hs]
      by_cases hf : servo_is_closed cfg t "fuel_intake" = true
      · by_cases ho : servo_is_closed cfg t "oxidizer_intake" = true
        · rw [if_neg (by simp [hf, ho])]
          rcases h with h | h | h
          · exact absurd ⟨hf, ho⟩ h
          · rw [if_pos h]
          · rw [if_neg (not_lt.mpr (le_of_lt (lt_of_le_of_lt (by norm_num) h))), if_pos h]
        · rw [if_pos (by simp [ho])]
      · rw [if_pos (by simp [hf])]
  · intro h
    unfold ignition_sequence at h
    by_cases hs : s = .ABORT
    · rw [if_pos hs] at h; simp at h
    · rw [if_neg hs] at h
      by_cases hf : servo_is_closed cfg t "fuel_intake" = true
      · by_cases ho : servo_is_closed cfg t "oxidizer_intake" = true
        · refine ⟨hf, ho, ?_, ?_⟩ <;>
          · rw [if_neg (by simp [hf, ho])] at h
            by_cases hlo : oxidizer_pressure t < 40
            · rw [if_pos hlo] at h; simp at h
            · rw [if_neg hlo] at h
              by_cases hhi : 65 < oxidizer_pressure t
              · rw [if_pos hhi] at h; simp at h
              · first
                | exact not_lt.mp hlo
                | exact not_lt.mp hhi
        · rw [if_pos (by simp [ho])] at h; simp at h
      · rw [if_pos (by simp [hf])] at h; simp at h

/-- C4 witness: fuel intake 20 raw units off its closed target (beyond the
5-unit tolerance) at pressure 50 bar, starting from `ARMED`: state becomes
`ABORT` and no command is issued. -/
theorem claim_C4_witness :
    servo_is_closed cfg0 t1 "fuel_intake" = false
    ∧ ignition_sequence cfg0 t1 .ARMED = (.ABORT, []) := by
  have hf : servo_is_closed cfg0 t1 "fuel_intake" = false := by
    simp [servo_is_closed, telemRaw, cfg0, t1]
    norm_num
  exact ⟨hf, (claim_C4 cfg0 t1 .ARMED).1 (Or.inl (fun hc => by rw [hc.1] at hf; simp at hf))⟩

end GroundStation


namespace GroundStation

/-- Every action the heating poll loop itself records is a pacing sleep
(the relay commands around it come from `heat_oxidizer`). -/
theorem heatLoop_sleeps (ps : List ℚ) :
    ∀ (b : Bool) (tr : List Cmd), heatLoop ps = some (b, tr) →
      ∀ c ∈ tr, c = Cmd.sleep 200 := by
  induction ps with
  | nil => intro b tr h; exact absurd h (by simp [heatLoop])
  | cons p rest ih =>
    intro b tr h
    unfold heatLoop at h
    by_cases h1 : 55 ≤ p ∧ p ≤ 65
    · rw [if_pos h1] at h
      injection h with h2
      injection h2 with hb htr
      subst htr
      intro c hc
      exact absurd hc (List.not_mem_nil c)
    · rw [if_neg h1] at h
      by_cases h2 : 90 ≤ p
      · rw [if_pos h2] at h
        injection h with h3
        injection h3 with hb htr
        subst htr
        intro c hc
        exact absurd hc (List.not_mem_nil c)
      · rw [if_neg h2] at h
        cases hr : heatLoop rest with
        | none => rw [hr] at h; exact absurd h (by simp)
        | some r =>
          obtain ⟨b', tr'⟩ := r
          rw [hr] at h
          injection h with h3
          injection h3 with hb htr
          subst htr
          intro c hc
          rcases List.mem_cons.mp hc with rfl | hc2
          · rfl
          · exact ih b' tr' hr c hc2

/-- If a pressure reading in the `[55, 65]` window occurs and no earlier
reading was `≥ 90`, the heating loop exits successfully. -/
theorem heatLoop_window (pre : List ℚ) :
    ∀ (p : ℚ) (post : List ℚ), (∀ q ∈ pre, ¬ 90 ≤ q) → 55 ≤ p → p ≤ 65 →
      ∃ tr, heatLoop (pre ++ p :: post) = some (false, tr) := by
  induction pre with
  | nil =>
    intro p post _ h1 h2
    refine ⟨[], ?_⟩
    rw [List.nil_append]
    unfold heatLoop
    rw [if_pos ⟨h1, h2⟩]
  | cons q pre' ih =>
    intro p post hq h1 h2
    have hq90 : ¬ 90 ≤ q := hq q (by simp)
    by_cases hw : 55 ≤ q ∧ q ≤ 65
    · refine ⟨[], ?_⟩
      show heatLoop (q :: (pre' ++ p :: post)) = _
      unfold heatLoop
      rw [if_pos hw]
    · obtain ⟨tr, htr⟩ := ih p post (fun r hr => hq r (by simp [hr])) h1 h2
      refine ⟨Cmd.sleep 200 :: tr, ?_⟩
      show heatLoop (q :: (pre' ++ p :: post)) = _
      unfold heatLoop
      rw [if_neg hw, if_neg hq90, htr]
      rfl

/-- If a pressure reading `≥ 90` occurs and no earlier reading was in the
`[55, 65]` window, the heating loop exits aborted. -/
theorem heatLoop_over (pre : List ℚ) :
    ∀ (p : ℚ) (post : List ℚ), (∀ q ∈ pre, ¬ (55 ≤ q ∧ q ≤ 65)) → 90 ≤ p →
      ∃ tr, heatLoop (pre ++ p :: post) = some (true, tr) := by
  induction pre with
  | nil =>
    intro p post _ h90
    refine ⟨[], ?_⟩
    rw [List.nil_append]
    unfold heatLoop
    rw [if_neg (fun hw : 55 ≤ p ∧ p ≤ 65 => absurd (le_trans h90 hw.2) (by norm_num)),
      if_pos h90]
  | cons q pre' ih =>
    intro p post hq h90
    have hwq : ¬ (55 ≤ q ∧ q ≤ 65) := hq q (by simp)
    by_cases h90q : 90 ≤ q
    · refine ⟨[], ?_⟩
      show heatLoop (q :: (pre' ++ p :: post)) = _
      unfold heatLoop
      rw [if_neg hwq, if_pos h90q]
    · obtain ⟨tr, htr⟩ := ih p post (fun r hr => hq r (by simp [hr])) h90
      refine ⟨Cmd.sleep 200 :: tr, ?_⟩
      show heatLoop (q :: (pre' ++ p :: post)) = _
      unfold heatLoop
      rw [if_neg hwq, if_neg h90q, htr]
      rfl

/-- C3: over any sequence of polled oxidizer-pressure readings, if a
reading in `[55, 65]` occurs before any reading `≥ 90`, `heat_oxidizer`
exits in `ARMED`; if a reading `≥ 90` occurs before any window reading, it
exits in `ABORT` (never `ARMED`); and on every exit the
`oxidizer_heater` relay-close command appears exactly once in the trace. -/
theorem claim_C3 (pressures : List ℚ) (s : FlightState) :
    (∀ pre p post, pressures = pre ++ p :: post → (∀ q ∈ pre, ¬ 90 ≤ q) →
      55 ≤ p → p ≤ 65 → ∃ tr, heat_oxidizer pressures s = some (.ARMED, tr))
    ∧ (∀ pre p post, pressures = pre ++ p :: post →
      (∀ q ∈ pre, ¬ (55 ≤ q ∧ q ≤ 65)) → 90 ≤ p →
      ∃ tr, heat_oxidizer pressures s = some (.ABORT, tr))
    ∧ (∀ st tr, heat_oxidizer pressures s = some (st, tr) →
      tr.count (Cmd.relayClose "oxidizer_heater") = 1) := by
  refine ⟨?_, ?_, ?_⟩
  · intro pre p post heq hpre h1 h2
    subst heq
    obtain ⟨tr, htr⟩ := heatLoop_window pre p post hpre h1 h2
    refine ⟨Cmd.relayOpen "oxidizer_heater" :: tr ++ [Cmd.relayClose "oxidizer_heater"], ?_⟩
    unfold heat_oxidizer
    rw [htr]
    rfl
  · intro pre p post heq hpre h90
    subst heq
    obtain ⟨tr, htr⟩ := heatLoop_over pre p post hpre h90
    refine ⟨Cmd.relayOpen "oxidizer_heater" :: tr ++ [Cmd.relayClose "oxidizer_heater"], ?_⟩
    unfold heat_oxidizer
    rw [htr]
    rfl
  · intro st tr h
    unfold heat_oxidizer at h
    cases hr : heatLoop pressures with
    | none => rw [hr] at h; exact absurd h (by simp)
    | some r =>
      obtain ⟨b', tr'⟩ := r
      rw [hr] at h
      injection h with h2
      injection h2 with hst htr
      subst htr
      have hnc : Cmd.relayClose "oxidizer_heater" ∉ tr' := by
        intro hc
        have := heatLoop_sleeps pressures b' tr' hr _ hc
        simp at this
      simp [List.count_cons, List.count_append, List.count_eq_zero.mpr hnc]

/-- C3 witness: pressure readings `[10, 30, 56, 61]` end `ARMED`; readings
`[10, 50, 91]` end `ABORT`. -/
theorem claim_C3_witness :
    (∃ tr, heat_oxidizer [10, 30, 56, 61] .FUEL_READY = some (.ARMED, tr))
    ∧ (∃ tr, heat_oxidizer [10, 50, 91] .FUEL_READY = some (.ABORT, tr)) := by
  constructor
  · refine (claim_C3 [10, 30, 56, 61] .FUEL_READY).1 [10, 30] 56 [61] rfl ?_
      (by norm_num) (by norm_num)
    intro q hq
    simp at hq
    rcases hq with rfl | rfl <;> norm_num
  · refine (claim_C3 [10, 50, 91] .FUEL_READY).2.1 [10, 50] 91 [] rfl ?_ (by norm_num)
    intro q hq
    simp at hq
    rcases hq with rfl | rfl <;> norm_num

end GroundStation

namespace GroundStation

/-- If no poll satisfies the deploy condition, the deploy loop never
deploys (the method stays in `DESCENT`, polling). -/
theorem deployPhase_none (polls : List DescPoll)
    (h : ∀ q ∈ polls, deployCond q = false) : deployPhase polls = none := by
  induction polls with
  | nil => rfl
  | cons p rest ih =>
    unfold deployPhase
    rw [h p (by simp), ih (fun q hq => h q (by simp [hq]))]
    rfl

/-- The deploy loop fires at the first poll satisfying the deploy
condition: one pacing sleep per earlier poll, then exactly one parachute
relay-open command, ending `CHUTE_DEPLOYED`. -/
theorem deployPhase_first (pre : List DescPoll) :
    ∀ (p : DescPoll) (rest : List DescPoll), (∀ q ∈ pre, deployCond q = false) →
      deployCond p = true →
      deployPhase (pre ++ p :: rest)
        = some (.CHUTE_DEPLOYED,
            pre.map (fun _ => Cmd.sleep 500) ++ [Cmd.relayOpen "parachute"]) := by
  induction pre with
  | nil =>
    intro p rest _ hp
    rw [List.nil_append]
    unfold deployPhase
    rw [hp]
    simp
  | cons q pre' ih =>
    intro p rest hq hp
    show deployPhase (q :: (pre' ++ p :: rest)) = _
    unfold deployPhase
    rw [hq q (by simp), ih p rest (fun r hr => hq r (by simp [hr])) hp]
    simp

/-- C5: in the deploy loop of `descent_and_chute` (entered when the
recorded apogee is at least 5 m and the state is not `ABORT`), the deploy
condition is exactly `(v_down ≤ 30 ∧ alt < 200) ∨ t_since > 9`; at the
first poll satisfying it the parachute relay-open command is issued
(exactly once) and the state becomes `CHUTE_DEPLOYED`; while no poll
satisfies it, no parachute command is issued and the phase keeps polling
in `DESCENT`. -/
theorem claim_C5 (pre : List DescPoll) (p : DescPoll) (rest polls : List DescPoll) :
    (deployCond p = true ↔ ((p.v_down ≤ 30 ∧ p.alt < 200) ∨ 9 < p.t_since))
    ∧ ((∀ q ∈ pre, deployCond q = false) → deployCond p = true →
      deployPhase (pre ++ p :: rest)
        = some (.CHUTE_DEPLOYED,
            pre.map (fun _ => Cmd.sleep 500) ++ [Cmd.relayOpen "parachute"]))
    ∧ ((∀ q ∈ polls, deployCond q = false) → deployPhase polls = none) := by
  refine ⟨?_, deployPhase_first pre p rest, deployPhase_none polls⟩
  unfold deployCond
  simp

/-- C5 witness: a fast high poll (45 m/s at 500 m, 2 s after apogee) does
not deploy; the next poll (20 m/s at 150 m, 3 s) deploys with exactly one
parachute command; and a failsafe poll at 9.01 s deploys even at 45 m/s
and 500 m. -/
theorem claim_C5_witness :
    deployCond ⟨45, 500, 2⟩ = false
    ∧ deployCond ⟨20, 150, 3⟩ = true
    ∧ deployCond ⟨45, 500, 901/100⟩ = true
    ∧ deployPhase [⟨45, 500, 2⟩, ⟨20, 150, 3⟩]
      = some (.CHUTE_DEPLOYED, [Cmd.sleep 500, Cmd.relayOpen "parachute"]) := by
  have h1 : deployCond ⟨45, 500, 2⟩ = false := by norm_num [deployCond]
  have h2 : deployCond ⟨20, 150, 3⟩ = true := by norm_num [deployCond]
  have h3 : deployCond ⟨45, 500, 901/100⟩ = true := by norm_num [deployCond]
  refine ⟨h1, h2, h3, ?_⟩
  have h4 := (claim_C5 [⟨45, 500, 2⟩] ⟨20, 150, 3⟩ [] []).2.1
    (by intro q hq; simp at hq; rw [hq]; exact h1) h2
  simpa using h4

/-- C6: `climb_and_detect_apogee` arms at the first sample strictly more
than 1.0 m above the start, then declares apogee at the first sample
strictly below the previously seen one, recording the previous (peak)
sample — not the first descending one — and entering `APOGEE`; on the
sample sequence `[0, 0.2, 0.3, 2.0, 5.0, 9.0, 8.0]` the recorded apogee
altitude is 9.0. -/
theorem claim_C6 (last a start : ℚ) (rest : List ℚ) :
    (trackLoop last (a :: rest) = if a < last then some last else trackLoop a rest)
    ∧ (a < last → trackLoop last (a :: rest) = some last)
    ∧ (armLoop start (a :: rest) = if 1 < a - start then some rest else armLoop start rest)
    ∧ climb_and_detect_apogee [0, 1/5, 3/10, 2, 5, 9, 8] .BOOST
      = some (.APOGEE, some 9) := by
  refine ⟨rfl, ?_, rfl, ?_⟩
  · intro h
    show (if a < last then some last else trackLoop a rest) = some last
    rw [if_pos h]
  · norm_num [climb_and_detect_apogee, armLoop, trackLoop]
    intro h
    exact absurd h (by simp)

/-- C6 witness: at tracking state 9 followed by sample 8, the recorded
apogee is the peak 9, not 8. -/
theorem claim_C6_witness : trackLoop 9 [8] = some 9 :=
  (claim_C6 9 8 0 []).2.1 (by norm_num)

end GroundStation
